import Mathlib

/-!
Verification development for the `audible-util` example consumers
(`examples/python_parser.py` and `examples/simple_json_parser.py`).

The Python code is shallowly embedded:
* JSON values (`json.loads` results) become the inductive `JVal`;
  Python machine floats are idealised as exact rationals `ℚ`
  (Python's extra acceptance of `NaN`/`Infinity` literals is not modelled,
  and no claim depends on it),
* Python truthiness (`if event:`) becomes `truthy`,
* the event handler `AudibleUtilParser.handle_event` becomes `handle_event`,
  returning the mutated state, the list of printed lines and a flag saying
  whether the branch raised an exception,
* the subprocess loop `AudibleUtilParser.run_conversion` becomes
  `run_conversion`, parametrised by an abstract `spawn` outcome.
-/

set_option autoImplicit false

/-- A decoded JSON value, the result type of `json.loads`.
`num isFloat q`: Python distinguishes `int` and `float` results;
the flag records which one `json.loads` produced, the rational is the value. -/
inductive JVal where
  | null
  | jbool (b : Bool)
  | num (isFloat : Bool) (q : ℚ)
  | str (s : String)
  | arr (elems : List JVal)
  | obj (fields : List (String × JVal))

/-- Python truthiness of a decoded JSON value (`if event:` in the stream loop,
`if eta` / `if chapter_num` / `if success` in the handler). -/
def truthy : JVal → Bool
  | .null => false
  | .jbool b => b
  | .num _ q => decide (q ≠ 0)
  | .str s => decide (s ≠ "")
  | .arr elems => !elems.isEmpty
  | .obj fields => !fields.isEmpty

/-- `dict.get(key, default)` on a decoded object.  `json.loads` builds a
Python dict in which a repeated key keeps its last value, so the lookup
scans the field list from the end. -/
def jget (fields : List (String × JVal)) (key : String) (dflt : JVal) : JVal :=
  match fields.reverse.find? (fun p => p.1 == key) with
  | some p => p.2
  | none => dflt

/-- Python `==` between a decoded JSON value and a string literal
(`event_type == "conversion_started"` and the other `elif` guards):
true exactly when the value is that string. -/
def jvalEqStr : JVal → String → Bool
  | .str s, t => s == t
  | _, _ => false

/-! ### The JSON parser (`json.loads`)

A strict recursive-descent parser over the character list, with a fuel
argument so that the recursion is structural and evaluable by the kernel.
`2 * length + 2` fuel always suffices because every recursive call either
consumes a character or alternates value/tail mode. -/

/-- JSON whitespace accepted between tokens by `json.loads`. -/
def isJsonWs (c : Char) : Bool :=
  c = ' ' || c = '\t' || c = '\n' || c = '\r'

def skipWs : List Char → List Char
  | [] => []
  | c :: cs => if isJsonWs c then skipWs cs else c :: cs

def parseHexDigit (c : Char) : Option ℕ :=
  if c.isDigit then some (c.toNat - 48)
  else if 'a' ≤ c ∧ c ≤ 'f' then some (c.toNat - 87)
  else if 'A' ≤ c ∧ c ≤ 'F' then some (c.toNat - 55)
  else none

/-- Body of a JSON string literal, after the opening quote.  Strict mode:
raw control characters are rejected.  A `\uXXXX` escape becomes the scalar
with that code (surrogate-pair recombination is not modelled; no claim
involves non-BMP escapes). -/
def parseStringBody : List Char → List Char → Option (String × List Char)
  | [], _ => none
  | '"' :: rest, acc => some (String.mk acc.reverse, rest)
  | '\\' :: '"' :: rest, acc => parseStringBody rest ('"' :: acc)
  | '\\' :: '\\' :: rest, acc => parseStringBody rest ('\\' :: acc)
  | '\\' :: '/' :: rest, acc => parseStringBody rest ('/' :: acc)
  | '\\' :: 'b' :: rest, acc => parseStringBody rest ('\x08' :: acc)
  | '\\' :: 'f' :: rest, acc => parseStringBody rest ('\x0c' :: acc)
  | '\\' :: 'n' :: rest, acc => parseStringBody rest ('\n' :: acc)
  | '\\' :: 'r' :: rest, acc => parseStringBody rest ('\r' :: acc)
  | '\\' :: 't' :: rest, acc => parseStringBody rest ('\t' :: acc)
  | '\\' :: 'u' :: h1 :: h2 :: h3 :: h4 :: rest, acc =>
    match parseHexDigit h1, parseHexDigit h2, parseHexDigit h3, parseHexDigit h4 with
    | some a, some b, some c, some d =>
      parseStringBody rest (Char.ofNat (((a * 16 + b) * 16 + c) * 16 + d) :: acc)
    | _, _, _, _ => none
  | '\\' :: _, _ => none
  | c :: rest, acc => if c.toNat < 32 then none else parseStringBody rest (c :: acc)

def digitsToNat (ds : List Char) : ℕ :=
  ds.foldl (fun a c => 10 * a + (c.toNat - 48)) 0

/-- Optional exponent part of a JSON number.  Returns `none` on a malformed
exponent, otherwise the (negated?, magnitude) pair if a marker was present
and the remaining input. -/
def parseExpTail : List Char → Option (Option (Bool × ℕ) × List Char)
  | 'e' :: rest => parseExpAfterMarker rest
  | 'E' :: rest => parseExpAfterMarker rest
  | cs => some (none, cs)
where
  parseExpAfterMarker (cs : List Char) : Option (Option (Bool × ℕ) × List Char) :=
    let (eneg, cs1) :=
      match cs with
      | '+' :: r => (false, r)
      | '-' :: r => (true, r)
      | r => (false, r)
    let (eds, cs2) := cs1.span Char.isDigit
    if eds.isEmpty then none else some (some (eneg, digitsToNat eds), cs2)

/-- A JSON number per the strict grammar: optional minus, integer part with
no leading zero, optional fraction, optional exponent. -/
def parseNumber (cs : List Char) : Option (JVal × List Char) :=
  let (neg, cs1) :=
    match cs with
    | '-' :: r => (true, r)
    | r => (false, r)
  let (ids, cs2) := cs1.span Char.isDigit
  if ids.isEmpty then none
  else if ids.length > 1 && ids.headD '0' = '0' then none
  else
    let (hasFrac, fds, cs3) :=
      match cs2 with
      | '.' :: r =>
        let (ds, r2) := r.span Char.isDigit
        (true, ds, r2)
      | r => (false, ([] : List Char), r)
    if hasFrac && fds.isEmpty then none
    else
      match parseExpTail cs3 with
      | none => none
      | some (expPart, cs4) =>
        let mant : ℚ := (digitsToNat (ids ++ fds) : ℚ) / 10 ^ fds.length
        let withExp : ℚ :=
          match expPart with
          | none => mant
          | some (eneg, e) => if eneg then mant / 10 ^ e else mant * 10 ^ e
        let isFloat := hasFrac || expPart.isSome
        some (.num isFloat (if neg then -withExp else withExp), cs4)

/-- Parsing mode: a whole value, the tail of an array after one element is
due, or the tail of an object where a member is due. -/
inductive PMode where
  | val
  | arrTail (acc : List JVal)
  | objTail (acc : List (String × JVal))

/-- The recursive core of `json.loads`. -/
def pjson : ℕ → PMode → List Char → Option (JVal × List Char)
  | 0, _, _ => none
  | fuel + 1, .val, cs =>
    match skipWs cs with
    | [] => none
    | '\x7b' :: rest =>
      match skipWs rest with
      | '\x7d' :: r2 => some (.obj [], r2)
      | r2 => pjson fuel (.objTail []) r2
    | '[' :: rest =>
      match skipWs rest with
      | ']' :: r2 => some (.arr [], r2)
      | r2 => pjson fuel (.arrTail []) r2
    | '"' :: rest => (parseStringBody rest []).map (fun p => (.str p.1, p.2))
    | 't' :: 'r' :: 'u' :: 'e' :: rest => some (.jbool true, rest)
    | 'f' :: 'a' :: 'l' :: 's' :: 'e' :: rest => some (.jbool false, rest)
    | 'n' :: 'u' :: 'l' :: 'l' :: rest => some (.null, rest)
    | cs2 => parseNumber cs2
  | fuel + 1, .arrTail acc, cs =>
    match pjson fuel .val cs with
    | none => none
    | some (v, rest) =>
      match skipWs rest with
      | ',' :: r2 => pjson fuel (.arrTail (acc ++ [v])) r2
      | ']' :: r2 => some (.arr (acc ++ [v]), r2)
      | _ => none
  | fuel + 1, .objTail acc, cs =>
    match skipWs cs with
    | '"' :: rest =>
      match parseStringBody rest [] with
      | none => none
      | some (k, r2) =>
        match skipWs r2 with
        | ':' :: r3 =>
          match pjson fuel .val r3 with
          | none => none
          | some (v, r4) =>
            match skipWs r4 with
            | ',' :: r5 => pjson fuel (.objTail (acc ++ [(k, v)])) r5
            | '\x7d' :: r5 => some (.obj (acc ++ [(k, v)]), r5)
            | _ => none
        | _ => none
    | _ => none

/-- `json.loads` on a whole string: one value, with only whitespace around it. -/
def jparse (s : String) : Option JVal :=
  match pjson (2 * s.length + 2) .val s.toList with
  | some (v, rest) => if (skipWs rest).isEmpty then some v else none
  | none => none

/-- Python `str.strip()` whitespace (the ASCII part; `str.strip` also strips
vertical tab and form feed). -/
def isPyStripWs (c : Char) : Bool :=
  c = ' ' || c = '\t' || c = '\n' || c = '\r' || c = '\x0b' || c = '\x0c'

def pystrip (s : String) : String :=
  String.mk (((s.toList.dropWhile isPyStripWs).reverse.dropWhile isPyStripWs).reverse)

/-- `AudibleUtilParser.parse_event`: `json.loads(line.strip())`, with
`json.JSONDecodeError` caught and turned into `None`. -/
def parse_event (line : String) : Option JVal :=
  jparse (pystrip line)

/-! ### Numeric helpers: Python `int()`, `round` of the `format` mini-language -/

/-- Python `int()` on a number: truncation toward zero. -/
def py_int (q : ℚ) : ℤ :=
  if 0 ≤ q then ⌊q⌋ else -⌊-q⌋

/-- Rounding used by Python's fixed-point `format` specifiers:
to the nearest integer, ties to the even neighbour. -/
def round_half_even (q : ℚ) : ℤ :=
  if q - ⌊q⌋ < 1 / 2 then ⌊q⌋
  else if 1 / 2 < q - ⌊q⌋ then ⌊q⌋ + 1
  else if ⌊q⌋ % 2 = 0 then ⌊q⌋ else ⌊q⌋ + 1

/-- Python `f"{q:.df}"` on an exact rational: fixed-point with `d` decimal
places, rounding half to even.  (Real Python rounds the binary double; the
rational idealisation agrees on every value the claims mention.) -/
def fmt_fixed (d : ℕ) (q : ℚ) : String :=
  let m := round_half_even (q * 10 ^ d)
  let a := m.natAbs
  let ip := a / 10 ^ d
  let fpStr := toString (a % 10 ^ d)
  let fpPad := String.mk (List.replicate (d - fpStr.length) '0') ++ fpStr
  (if m < 0 then "-" else "") ++ toString ip ++
    (if d = 0 then "" else "." ++ fpPad)

/-- Right-alignment to width 5 done by the `5.1f` specifier of the
progress line. -/
def pad5 (s : String) : String :=
  String.mk (List.replicate (5 - s.length) ' ') ++ s

/-- Terminating decimal representation of a non-integer rational, used to
approximate Python's `repr` of a non-integer float.  (Python prints the
shortest round-tripping decimal, possibly scientific; no claim depends on
the representation of a non-integer float.) -/
def ratDecRepr (q : ℚ) : String :=
  let a : ℚ := |q|
  let core :=
    match (List.range 18).find? (fun k => (a * 10 ^ (k + 1)).den = 1) with
    | some k =>
      let m := (a * 10 ^ (k + 1)).num.toNat
      let fpStr := toString (m % 10 ^ (k + 1))
      let fpPad := String.mk (List.replicate (k + 1 - fpStr.length) '0') ++ fpStr
      toString (m / 10 ^ (k + 1)) ++ "." ++ fpPad
    | none => toString a.num.natAbs ++ "/" ++ toString a.den
  (if q < 0 then "-" else "") ++ core

/-- Python `str()`/f-string interpolation of a decoded JSON value.
Containers are abbreviated (Python would print their full `repr`;
no claim depends on container rendering). -/
def py_str : JVal → String
  | .null => "None"
  | .jbool b => if b then "True" else "False"
  | .num false q => if q.den = 1 then toString q.num else ratDecRepr q
  | .num true q => if q.den = 1 then toString q.num ++ ".0" else ratDecRepr q
  | .str s => s
  | .arr _ => "[list]"
  | .obj _ => "[dict]"

/-- Numeric coercion implicit in Python arithmetic and the `f` format
specifiers: numbers are themselves, `bool` is `0`/`1`, anything else
raises — `None`, strings and containers all make `:.1f`/`:.0f` formats,
`40 * x / 100` and `x / 1000` raise (a string `x` raises even when it
looks numeric: format codes reject `str`, and `40 * x` is repetition,
whose result `/ 100` raises).  `float()` is different and is modelled
separately by `format_file_size_jval`. -/
def toNum : JVal → Option ℚ
  | .num _ q => some q
  | .jbool b => some (if b then 1 else 0)
  | _ => none

/-- `f"{v:.df}"` on a decoded JSON value: `none` models the raised
`TypeError`/`ValueError` on non-numeric input. -/
def fmt_jnum (d : ℕ) (v : JVal) : Option String :=
  (toNum v).map (fmt_fixed d)

/-! ### Renderer pieces of the `chapter_progress` branch (lines 65-76) -/

/-- `filled_length = int(bar_length * progress_pct / 100)` with the default
`bar_length = 40`. -/
def filled_length (progress_pct : ℚ) : ℤ :=
  py_int (40 * progress_pct / 100)

/-- `bar = "█" * filled_length + "░" * (bar_length - filled_length)`;
Python repetition by a negative count yields the empty string, which
`Int.toNat` mirrors. -/
def barStr (progress_pct : ℚ) : String :=
  String.mk (List.replicate (filled_length progress_pct).toNat '█' ++
    List.replicate (40 - filled_length progress_pct).toNat '░')

/-- `eta_str = f"{eta:.0f}s" if eta else "Unknown"` (line 74): `eta` is the
raw `event.get("eta_seconds")`; `none` models a raised exception (truthy
non-numeric `eta`). -/
def render_eta (eta : JVal) : Option String :=
  if truthy eta then (fmt_jnum 0 eta).map (fun s => s ++ "s")
  else some "Unknown"

/-! ### `AudibleUtilParser.format_file_size` (lines 106-119) -/

/-- The `while size >= 1024 and unit_index < len(units) - 1` loop.
The loop body increments `unit_index`, which the guard bounds by 3, so
running it with fuel 3 from `unit_index = 0` is exact; the fuel only makes
the recursion structural. -/
def fs_while (fuel : ℕ) (size : ℚ) (unit_index : ℕ) : ℚ × ℕ :=
  match fuel with
  | 0 => (size, unit_index)
  | f + 1 =>
    if 1024 ≤ size ∧ unit_index < 3 then fs_while f (size / 1024) (unit_index + 1)
    else (size, unit_index)

/-- The tail of `format_file_size` after the zero shortcut: the division
loop followed by `f"{size:.1f} {units[unit_index]}"`. -/
def fsLoopFmt (size : ℚ) : String :=
  let p := fs_while 3 size 0
  fmt_fixed 1 p.1 ++ " " ++ ["B", "KB", "MB", "GB"].getD p.2 ""

/-- `format_file_size`: `"0 B"` for zero, otherwise divide by 1024 until
below 1024 or the unit list `B/KB/MB/GB` is exhausted, then one decimal
place.  The method's `int` argument is generalised to the exact rational
value an `int`, `float` or `bool` argument converts to (for those inputs
the `== 0` shortcut coincides with the `= 0` test here; string arguments
go through `format_file_size_jval` below). -/
def format_file_size (size_bytes : ℚ) : String :=
  if size_bytes = 0 then "0 B"
  else fsLoopFmt size_bytes

/-- Python `float()` applied to a string: optional whitespace and sign,
then digits with optional fraction and exponent.  Not modelled (the model
rejects where Python accepts; outside every claim and the schema):
underscore digit separators, `inf`/`infinity`/`nan`, and non-ASCII
digits/whitespace. -/
def pyFloatStr (s : String) : Option ℚ :=
  let cs := (pystrip s).toList
  let (neg, cs1) :=
    match cs with
    | '+' :: r => (false, r)
    | '-' :: r => (true, r)
    | r => (false, r)
  let (ids, cs2) := cs1.span Char.isDigit
  let (fds, cs3) :=
    match cs2 with
    | '.' :: r => r.span Char.isDigit
    | r => (([] : List Char), r)
  if ids.isEmpty && fds.isEmpty then none
  else
    let expRes : Option (Bool × ℕ × List Char) :=
      match cs3 with
      | 'e' :: r => pyFloatExp r
      | 'E' :: r => pyFloatExp r
      | r => some (false, 0, r)
    match expRes with
    | none => none
    | some (eneg, e, rest) =>
      if rest.isEmpty then
        let mant : ℚ := (digitsToNat (ids ++ fds) : ℚ) / 10 ^ fds.length
        let v := if eneg then mant / 10 ^ e else mant * 10 ^ e
        some (if neg then -v else v)
      else none
where
  pyFloatExp (cs : List Char) : Option (Bool × ℕ × List Char) :=
    let (eneg, cs1) :=
      match cs with
      | '+' :: r => (false, r)
      | '-' :: r => (true, r)
      | r => (false, r)
    let (eds, cs2) := cs1.span Char.isDigit
    if eds.isEmpty then none else some (eneg, digitsToNat eds, cs2)

/-- The call `self.format_file_size(file_size)` on the raw decoded value.
Line 108's `size_bytes == 0` is Python `==`: it is true for `0`, `0.0`
and `False` (so those short-circuit to `"0 B"`) and always false for
strings.  Line 112's `float(size_bytes)` accepts numbers, bools and
numeric strings — `"1536"` yields `"1.5 KB"`, and `"0"` skips the
shortcut and yields `"0.0 B"` — and raises (`none`) for non-numeric
strings, `None` and containers. -/
def format_file_size_jval : JVal → Option String
  | .num _ q => some (format_file_size q)
  | .jbool b => some (format_file_size (if b then 1 else 0))
  | .str s => (pyFloatStr s).map fsLoopFmt
  | _ => none

/-! ### Progress state and the event handler -/

/-- The parser object's fields (`__init__`, lines 22-26). -/
structure ProgressState where
  current_chapter : JVal
  total_chapters : JVal
  start_time : Option ℚ
  conversion_success : JVal

/-- `__init__`: chapters `0`, no start time, success `False`. -/
def initial_state : ProgressState :=
  ⟨.num false 0, .num false 0, none, .jbool false⟩

/-- Result of one `handle_event` call: the mutated state, the lines printed
before returning or raising, and whether the call raised an exception. -/
structure HRes where
  st : ProgressState
  out : List String
  raised : Bool

/-- The `conversion_started` branch (lines 39-45).  `now` is the value
`time.time()` returns. -/
def handleConversionStarted (now : ℚ) (st : ProgressState)
    (fields : List (String × JVal)) : HRes :=
  let total := jget fields "total_chapters" (.num false 0)
  let output_format := jget fields "output_format" (.str "unknown")
  let output_path := jget fields "output_path" (.str "unknown")
  ⟨{ st with total_chapters := total, start_time := some now },
    ["🚀 Conversion started: " ++ py_str total ++ " chapters to " ++
      py_str output_format ++ " format",
      "📁 Output path: " ++ py_str output_path], false⟩

/-- The `chapter_started` branch (lines 47-53): `current_chapter` is
assigned before the prints, so it is mutated even when the
`{duration:.1f}` format raises. -/
def handleChapterStarted (st : ProgressState)
    (fields : List (String × JVal)) : HRes :=
  let chapter_num := jget fields "chapter_number" (.num false 0)
  let chapter_title := jget fields "chapter_title" (.str "Unknown")
  let duration := jget fields "duration_seconds" (.num false 0)
  let header := "\n📖 Chapter " ++ py_str chapter_num ++ "/" ++
    py_str st.total_chapters ++ ": " ++ py_str chapter_title
  let res : List String × Bool :=
    match fmt_jnum 1 duration with
    | none => ([header], true)
    | some d => ([header, "⏱️  Duration: " ++ d ++ " seconds"], false)
  ⟨{ st with current_chapter := chapter_num }, res.1, res.2⟩

/-- The `chapter_progress` branch (lines 55-76): presentation only, no
state mutation.  `none` sub-results model the exceptions raised by
`int(40 * pct / 100)`, `format_file_size(file_size)` (whose `float()`
accepts numeric strings), `f"{eta:.0f}"`, `f"{speed:.1f}"` and
`bitrate / 1000` on inputs those operations reject. -/
def handleChapterProgress (st : ProgressState)
    (fields : List (String × JVal)) : HRes :=
  let progress_pct := jget fields "progress_percentage" (.num false 0)
  let file_size := jget fields "file_size" (.num false 0)
  let eta := jget fields "eta_seconds" .null
  let speed := jget fields "speed" (.num false 0)
  let bitrate := jget fields "bitrate" (.num false 0)
  let res : List String × Bool :=
    match toNum progress_pct with
    | none => ([], true)
    | some p =>
      match format_file_size_jval file_size with
      | none => ([], true)
      | some size_str =>
        match render_eta eta with
        | none => ([], true)
        | some eta_str =>
          match fmt_jnum 1 speed, toNum bitrate with
          | some speed_str, some br =>
            (["\r  " ++ barStr p ++ " " ++ pad5 (fmt_fixed 1 p) ++
              "% | Speed: " ++ speed_str ++ "x | Bitrate: " ++
              fmt_fixed 0 (br / 1000) ++ "kbps | Size: " ++
              size_str ++ " | ETA: " ++ eta_str], false)
          | _, _ => ([], true)
  ⟨st, res.1, res.2⟩

/-- The `chapter_completed` branch (lines 78-85): no state mutation; the
first two prints happen before a bad `{duration:.1f}` could raise. -/
def handleChapterCompleted (st : ProgressState)
    (fields : List (String × JVal)) : HRes :=
  let chapter_num := jget fields "chapter_number" (.num false 0)
  let chapter_title := jget fields "chapter_title" (.str "Unknown")
  let output_file := jget fields "output_file" (.str "Unknown")
  let duration := jget fields "duration_seconds" (.num false 0)
  let done := "\n✅ Chapter " ++ py_str chapter_num ++ " completed: " ++
    py_str chapter_title
  let outf := "📄 Output: " ++ py_str output_file
  let res : List String × Bool :=
    match fmt_jnum 1 duration with
    | none => ([done, outf], true)
    | some d => ([done, outf, "⏱️  Duration: " ++ d ++ " seconds"], false)
  ⟨st, res.1, res.2⟩

/-- The `conversion_completed` branch (lines 87-96): `conversion_success`
is assigned the raw `success` value before the prints. -/
def handleConversionCompleted (st : ProgressState)
    (fields : List (String × JVal)) : HRes :=
  let total_duration := jget fields "total_duration_seconds" (.num false 0)
  let success := jget fields "success" (.jbool false)
  let res : List String × Bool :=
    if truthy success then
      match fmt_jnum 1 total_duration with
      | none => (["\n🎉 Conversion completed successfully!"], true)
      | some d =>
        (["\n🎉 Conversion completed successfully!",
          "⏱️  Total time: " ++ d ++ " seconds"], false)
    else (["\n❌ Conversion failed!"], false)
  ⟨{ st with conversion_success := success }, res.1, res.2⟩

/-- The `error` branch (lines 98-104): no state mutation, no failing
operation. -/
def handleError (st : ProgressState)
    (fields : List (String × JVal)) : HRes :=
  let message := jget fields "message" (.str "Unknown error")
  let chapter_num := jget fields "chapter_number" .null
  let res : List String × Bool :=
    if truthy chapter_num then
      (["\n❌ Error in chapter " ++ py_str chapter_num ++ ": " ++
        py_str message], false)
    else (["\n❌ Error: " ++ py_str message], false)
  ⟨st, res.1, res.2⟩

/-- `AudibleUtilParser.handle_event` (lines 35-104).  A non-dict event
makes `event.get("type")` raise `AttributeError` at once; an unmatched
`type` tag falls through every `elif` and is a no-op. -/
def handle_event (now : ℚ) (st : ProgressState) (event : JVal) : HRes :=
  match event with
  | .obj fields =>
    let event_type := jget fields "type" .null
    if jvalEqStr event_type "conversion_started" then
      handleConversionStarted now st fields
    else if jvalEqStr event_type "chapter_started" then
      handleChapterStarted st fields
    else if jvalEqStr event_type "chapter_progress" then
      handleChapterProgress st fields
    else if jvalEqStr event_type "chapter_completed" then
      handleChapterCompleted st fields
    else if jvalEqStr event_type "conversion_completed" then
      handleConversionCompleted st fields
    else if jvalEqStr event_type "error" then
      handleError st fields
    else ⟨st, [], false⟩
  | _ => ⟨st, [], true⟩

/-- Whether a decoded event is a dict whose `type` equals the given tag
(the condition each `elif` of `handle_event` tests). -/
def isEventType (event : JVal) (tag : String) : Bool :=
  match event with
  | .obj fields => jvalEqStr (jget fields "type" .null) tag
  | _ => false

/-! ### The stream loop and the supervisor -/

/-- One iteration of `for line in process.stdout` (lines 138-141):
`event = self.parse_event(line)`, then `if event: self.handle_event(event)`. -/
def process_line (now : ℚ) (st : ProgressState) (line : String) : HRes :=
  match parse_event line with
  | none => ⟨st, [], false⟩
  | some event => if truthy event then handle_event now st event else ⟨st, [], false⟩

/-- The whole output loop: processes lines in order, stopping at the first
raised exception (which propagates out of the `for` loop). -/
def processLines (now : ℚ) : ProgressState → List String → ProgressState × Bool
  | st, [] => (st, false)
  | st, line :: rest =>
    let r := process_line now st line
    if r.raised then (r.st, true) else processLines now r.st rest

/-- Outcome of `subprocess.Popen`: either the constructor raises, or a
child is produced with its stdout lines, exit code and stderr content. -/
inductive SpawnResult where
  | spawnFailure
  | spawned (stdoutLines : List String) (exitCode : ℤ) (stderr : String)

/-- `AudibleUtilParser.run_conversion` (lines 121-156): append
`--machine-readable`, stream stdout through the pipeline, then mirror the
child's exit code; any exception (spawn failure or a raising handler) is
caught by the outer `except` and turned into the fixed return code 1. -/
def run_conversion (now : ℚ) (st0 : ProgressState)
    (spawn : List String → SpawnResult) (args : List String) : ℤ :=
  match spawn (args ++ ["--machine-readable"]) with
  | .spawnFailure => 1
  | .spawned lines code _ =>
    match processLines now st0 lines with
    | (_, true) => 1
    | (_, false) => if code ≠ 0 then code else 0

/-- `main` of `examples/simple_json_parser.py` (lines 26-57), with the
argument-count check and prints elided: the loop only prints, so the exit
code is the child's code, or 1 when spawning raises. -/
def simple_main (spawn : List String → SpawnResult) (args : List String) : ℤ :=
  match spawn (args ++ ["--machine-readable"]) with
  | .spawnFailure => 1
  | .spawned _ code _ => code

/-! ### Helper lemmas -/

theorem py_int_of_nonneg {q : ℚ} (h : 0 ≤ q) : py_int q = ⌊q⌋ := by
  unfold py_int
  rw [if_pos h]

theorem fs_while_stop {s : ℚ} {i : ℕ} (h : ¬(1024 ≤ s ∧ i < 3)) (f : ℕ) :
    fs_while f s i = (s, i) := by
  cases f with
  | zero => rfl
  | succ f => simp [fs_while, h]

theorem fs_while_succ {s : ℚ} {i : ℕ} (h1 : 1024 ≤ s) (h2 : i < 3) (f : ℕ) :
    fs_while (f + 1) s i = fs_while f (s / 1024) (i + 1) := by
  simp [fs_while, h1, h2]

theorem handle_event_out_raised_now (now1 now2 : ℚ) (st : ProgressState) (ev : JVal) :
    (handle_event now1 st ev).out = (handle_event now2 st ev).out ∧
    (handle_event now1 st ev).raised = (handle_event now2 st ev).raised := by
  cases ev with
  | obj fields =>
    simp only [handle_event]
    split_ifs <;> exact ⟨rfl, rfl⟩
  | null => exact ⟨rfl, rfl⟩
  | jbool b => exact ⟨rfl, rfl⟩
  | num f q => exact ⟨rfl, rfl⟩
  | str s => exact ⟨rfl, rfl⟩
  | arr elems => exact ⟨rfl, rfl⟩

/-! ### C1 — supervisor exit codes -/

/-- C1 (counterexample): the claim says `run_conversion` returns 0 whenever
the child exits with code 0, for every argument list.  It does not: a
stdout line holding the valid JSON value `5` (truthy, not a dict) makes
`handle_event` raise `AttributeError`, the outer `except` catches it, and
`run_conversion` returns 1 even though the child exited with 0. -/
theorem C1_counterexample :
    run_conversion 0 initial_state (fun _ => SpawnResult.spawned ["5"] 0 "") [] = 1 ∧
    (1 : ℤ) ≠ 0 :=
  ⟨by with_unfolding_all rfl, by norm_num⟩

/-- C1 (amended): `run_conversion` appends `--machine-readable` as the
final argument of the spawned command (first conjunct: a spawn that
succeeds only on exactly `args ++ ["--machine-readable"]` is reached and
the run returns 0); provided no stdout line makes the handler raise, it
returns 0 when the child exits 0 and the child's own exit code when that
is non-zero; when spawning fails it returns the fixed non-zero code 1
(which a child exiting with 1 can coincide with).  `simple_json_parser.main`
satisfies the exit-code contract unconditionally since its loop only
prints. -/
theorem C1_amended (args : List String) (now : ℚ) (st0 : ProgressState)
    (lines : List String) (code : ℤ) (err : String)
    (hok : (processLines now st0 lines).2 = false) :
    run_conversion now st0
      (fun a => if a = args ++ ["--machine-readable"] then SpawnResult.spawned [] 0 ""
        else SpawnResult.spawnFailure) args = 0 ∧
    run_conversion now st0 (fun _ => SpawnResult.spawnFailure) args = 1 ∧
    run_conversion now st0 (fun _ => SpawnResult.spawned lines 0 err) args = 0 ∧
    (code ≠ 0 → run_conversion now st0 (fun _ => SpawnResult.spawned lines code err) args = code) ∧
    simple_main (fun _ => SpawnResult.spawnFailure) args = 1 ∧
    simple_main (fun _ => SpawnResult.spawned lines code err) args = code := by
  rcases hp : processLines now st0 lines with ⟨st', raised⟩
  rw [hp] at hok
  subst hok
  refine ⟨?_, rfl, ?_, ?_, rfl, rfl⟩
  · simp [run_conversion, processLines]
  · simp [run_conversion, hp]
  · intro hc
    simp [run_conversion, hp, hc]

/-- C1 (witness for the amended claim) at concrete arguments: one
well-formed `error` event line, child exit code 3. -/
theorem C1_amended_witness :
    (run_conversion 0 initial_state
      (fun a => if a = ["-a"] ++ ["--machine-readable"] then SpawnResult.spawned [] 0 ""
        else SpawnResult.spawnFailure) ["-a"] = 0 ∧
    run_conversion 0 initial_state (fun _ => SpawnResult.spawnFailure) ["-a"] = 1 ∧
    run_conversion 0 initial_state
      (fun _ => SpawnResult.spawned
        ["\x7b\"type\": \"chapter_progress\", \"file_size\": \"1536\"\x7d"] 0 "boom")
      ["-a"] = 0 ∧
    run_conversion 0 initial_state
      (fun _ => SpawnResult.spawned
        ["\x7b\"type\": \"chapter_progress\", \"file_size\": \"1536\"\x7d"] 3 "boom")
      ["-a"] = 3 ∧
    simple_main (fun _ => SpawnResult.spawnFailure) ["-a"] = 1 ∧
    simple_main (fun _ => SpawnResult.spawned
      ["\x7b\"type\": \"chapter_progress\", \"file_size\": \"1536\"\x7d"] 3 "boom")
      ["-a"] = 3) ∧
    format_file_size_jval (JVal.str "1536") = some "1.5 KB" := by
  have h := C1_amended ["-a"] 0 initial_state
    ["\x7b\"type\": \"chapter_progress\", \"file_size\": \"1536\"\x7d"] 3 "boom"
    (by with_unfolding_all rfl)
  exact ⟨⟨h.1, h.2.1, h.2.2.1, h.2.2.2.1 (by norm_num), h.2.2.2.2.1, h.2.2.2.2.2⟩,
    by with_unfolding_all rfl⟩

/-! ### C2 — malformed lines are skipped without touching state -/

/-- C2: a line that is not valid JSON makes `parse_event` return the
failure value `none` (no exception), processing it leaves the Progress
State unchanged and prints nothing, and the stream loop continues with the
remaining lines exactly as if the line had not been there. -/
theorem C2_malformed_line_skipped (now : ℚ) (st : ProgressState) (line : String)
    (rest : List String) (h : parse_event line = none) :
    process_line now st line = ⟨st, [], false⟩ ∧
    processLines now st (line :: rest) = processLines now st rest := by
  have h1 : process_line now st line = ⟨st, [], false⟩ := by
    unfold process_line
    rw [h]
  refine ⟨h1, ?_⟩
  simp [processLines, h1]

/-- C2 (witness): the concrete malformed line `"not json"`. -/
theorem C2_witness :
    parse_event "not json" = none ∧
    process_line 0 initial_state "not json" = ⟨initial_state, [], false⟩ ∧
    processLines 0 initial_state ["not json"] = processLines 0 initial_state [] := by
  have hp : parse_event "not json" = none := by with_unfolding_all rfl
  have h := C2_malformed_line_skipped 0 initial_state "not json" [] hp
  exact ⟨hp, h.1, h.2⟩

/-! ### C10 — a truthy non-dict JSON line aborts the stream and forces code 1 -/

/-- C10: the line `5` is valid JSON, so decode succeeds; the value is
truthy, so the handler runs and raises (`event.get` on a non-dict);
the supervisor's outer `except` catches it, the rest of the stream is
never processed (a later `conversion_completed` event that would set
`conversion_success` does not), and `run_conversion` returns the fixed
code 1 whatever the child's exit code was. -/
theorem C10_nondict_line_aborts (code : ℤ) :
    parse_event "5" = some (JVal.num false 5) ∧
    truthy (JVal.num false 5) = true ∧
    (handle_event 0 initial_state (JVal.num false 5)).raised = true ∧
    run_conversion 0 initial_state
      (fun _ => SpawnResult.spawned
        ["5", "\x7b\"type\": \"conversion_completed\", \"success\": true\x7d"] code "") [] = 1 ∧
    (processLines 0 initial_state
      ["5", "\x7b\"type\": \"conversion_completed\", \"success\": true\x7d"]).1.conversion_success
      = JVal.jbool false ∧
    (processLines 0 initial_state
      ["\x7b\"type\": \"conversion_completed\", \"success\": true\x7d"]).1.conversion_success
      = JVal.jbool true := by
  refine ⟨by with_unfolding_all rfl, by with_unfolding_all rfl, rfl, ?_,
    by with_unfolding_all rfl, by with_unfolding_all rfl⟩
  with_unfolding_all rfl

/-! ### C3 — progress-bar fill -/

/-- C3 (counterexample): the claim says the filled cell count equals
`round(40 * p / 100)` clamped to `[0, 40]`.  At `p = 11.3` the code
computes `int(40 * 11.3 / 100) = int(4.52) = 4` filled cells, while the
claimed rounding gives 5. -/
theorem C3_counterexample :
    ¬ (((barStr (113 / 10)).toList.count '█' : ℤ) =
      max 0 (min 40 (round ((40 : ℚ) * (113 / 10) / 100)))) := by
  have h1 : ((barStr (113 / 10)).toList.count '█' : ℤ) = 4 := by with_unfolding_all rfl
  have h2 : round ((40 : ℚ) * (113 / 10) / 100) = 5 := by norm_num [round_eq]
  rw [h1, h2]
  norm_num

/-- C3 (amended): the filled cell count equals the *truncation*
`int(40 * p / 100)` — for `p` in the schema range `[0, 100]` this is the
floor of `40 * p / 100`, which automatically lies in `[0, 40]` (no
rounding to nearest and no explicit clamping happen in the code). -/
theorem C3_amended (p : ℚ) (h0 : 0 ≤ p) (h1 : p ≤ 100) :
    ((barStr p).toList.count '█' : ℤ) = filled_length p ∧
    filled_length p = ⌊40 * p / 100⌋ ∧
    0 ≤ filled_length p ∧ filled_length p ≤ 40 := by
  have hq0 : 0 ≤ 40 * p / 100 := by
    apply div_nonneg
    · nlinarith
    · norm_num
  have hfl : filled_length p = ⌊40 * p / 100⌋ := py_int_of_nonneg hq0
  have hq40 : 40 * p / 100 ≤ 40 := by
    rw [div_le_iff₀ (by norm_num : (0 : ℚ) < 100)]
    nlinarith
  have hlb : 0 ≤ filled_length p := by
    rw [hfl]
    exact Int.floor_nonneg.mpr hq0
  have hub : filled_length p ≤ 40 := by
    rw [hfl]
    calc ⌊40 * p / 100⌋ ≤ ⌊(40 : ℚ)⌋ := Int.floor_le_floor hq40
    _ = 40 := by norm_num
  have hcount : (barStr p).toList.count '█' = (filled_length p).toNat := by
    show (List.replicate (filled_length p).toNat '█' ++
      List.replicate (40 - filled_length p).toNat '░').count '█' = (filled_length p).toNat
    rw [List.count_append, List.count_replicate_self, List.count_eq_zero_of_not_mem,
      Nat.add_zero]
    intro hmem
    exact absurd (List.eq_of_mem_replicate hmem) (by decide)
  refine ⟨?_, hfl, hlb, hub⟩
  rw [hcount, Int.toNat_of_nonneg hlb]

/-- C3 (witness for the amended claim) at `p = 50`: 20 filled cells. -/
theorem C3_amended_witness :
    ((barStr 50).toList.count '█' : ℤ) = filled_length 50 ∧
    filled_length 50 = ⌊(40 : ℚ) * 50 / 100⌋ ∧
    0 ≤ filled_length 50 ∧ filled_length 50 ≤ 40 :=
  C3_amended 50 (by norm_num) (by norm_num)

/-! ### C4 — ETA rendering -/

/-- C4 (counterexample): the claim says the ETA renders as `"Unknown"`
exactly when `eta_seconds` is absent.  The code tests Python truthiness
(`if eta`), so a *present* `eta_seconds = 0.0` also renders `"Unknown"`
instead of the claimed `"0s"`. -/
theorem C4_counterexample :
    render_eta (JVal.num true 0) = some "Unknown" ∧
    render_eta (JVal.num true 0) ≠ some "0s" := by
  have h : render_eta (JVal.num true 0) = some "Unknown" := by with_unfolding_all rfl
  refine ⟨h, ?_⟩
  rw [h]
  intro hc
  exact absurd (Option.some.inj hc) (by decide)

/-- C4 (amended): the rendered ETA is the rounded integer seconds with an
`s` suffix when `eta_seconds` is present, numeric and truthy (non-zero);
it is `"Unknown"` when `eta_seconds` is absent (the `dict.get` default
`None`) *or* when it is zero.  `42.7` renders as `"43s"`. -/
theorem C4_amended (b : Bool) (q : ℚ) (hq : q ≠ 0) :
    render_eta (JVal.num b q) = some (fmt_fixed 0 q ++ "s") ∧
    render_eta JVal.null = some "Unknown" ∧
    render_eta (JVal.num b 0) = some "Unknown" := by
  refine ⟨?_, by with_unfolding_all rfl, ?_⟩
  · simp [render_eta, truthy, hq, fmt_jnum, toNum]
  · simp [render_eta, truthy]

/-- C4 (witness for the amended claim) at `eta_seconds = 42.7`, which
renders as `"43s"`. -/
theorem C4_amended_witness :
    (render_eta (JVal.num true (427 / 10)) = some (fmt_fixed 0 (427 / 10) ++ "s") ∧
      render_eta JVal.null = some "Unknown" ∧
      render_eta (JVal.num true 0) = some "Unknown") ∧
    fmt_fixed 0 (427 / 10) ++ "s" = "43s" :=
  ⟨C4_amended true (427 / 10) (by norm_num), by with_unfolding_all rfl⟩

/-! ### C5 — file-size formatting -/

/-- C5: `format_file_size` maps 0 to `"0 B"`; otherwise it divides by 1024
until the value is below 1024 or the unit list `B/KB/MB/GB` is exhausted
and prints one decimal place: values in `(0, 1024)` keep unit `B`, in
`[1024, 1024²)` unit `KB` after one division, in `[1024², 1024³)` unit
`MB` after two, and from `1024³` on unit `GB` after three (even if the
quotient still exceeds 1024, the units being exhausted).  The spec's
examples 1536 → `"1.5 KB"`, 1048576 → `"1.0 MB"`, 1073741824 → `"1.0 GB"`
all hold. -/
theorem C5_format_file_size :
    format_file_size 0 = "0 B" ∧
    format_file_size 1536 = "1.5 KB" ∧
    format_file_size 1048576 = "1.0 MB" ∧
    format_file_size 1073741824 = "1.0 GB" ∧
    (∀ q : ℚ, 0 < q → q < 1024 → format_file_size q = fmt_fixed 1 q ++ " B") ∧
    (∀ q : ℚ, 1024 ≤ q → q < 1024 ^ 2 →
      format_file_size q = fmt_fixed 1 (q / 1024) ++ " KB") ∧
    (∀ q : ℚ, 1024 ^ 2 ≤ q → q < 1024 ^ 3 →
      format_file_size q = fmt_fixed 1 (q / 1024 ^ 2) ++ " MB") ∧
    (∀ q : ℚ, 1024 ^ 3 ≤ q → format_file_size q = fmt_fixed 1 (q / 1024 ^ 3) ++ " GB") := by
  refine ⟨by with_unfolding_all rfl, by with_unfolding_all rfl, by with_unfolding_all rfl,
    by with_unfolding_all rfl, ?_, ?_, ?_, ?_⟩
  · intro q h0 hlt
    have hz : ¬(q = 0) := ne_of_gt h0
    have hstop : fs_while 3 q 0 = (q, 0) := by
      refine fs_while_stop ?_ 3
      rintro ⟨hc, -⟩
      exact absurd hc (not_le.mpr hlt)
    simp only [format_file_size, fsLoopFmt, hz, if_false, hstop]
    rw [String.append_assoc]
    rfl
  · intro q hge hlt
    have h0 : (0 : ℚ) < q := lt_of_lt_of_le (by norm_num) hge
    have hz : ¬(q = 0) := ne_of_gt h0
    have hstep : fs_while 3 q 0 = fs_while 2 (q / 1024) 1 :=
      fs_while_succ hge (by norm_num) 2
    have hstop : fs_while 2 (q / 1024) 1 = (q / 1024, 1) := by
      refine fs_while_stop ?_ 2
      rintro ⟨hc, -⟩
      rw [le_div_iff₀ (by norm_num : (0 : ℚ) < 1024)] at hc
      nlinarith
    simp only [format_file_size, fsLoopFmt, hz, if_false, hstep, hstop]
    rw [String.append_assoc]
    rfl
  · intro q hge hlt
    have h0 : (0 : ℚ) < q := lt_of_lt_of_le (by norm_num) hge
    have hz : ¬(q = 0) := ne_of_gt h0
    have h1 : (1024 : ℚ) ≤ q := le_trans (by norm_num) hge
    have h2 : (1024 : ℚ) ≤ q / 1024 := by
      rw [le_div_iff₀ (by norm_num : (0 : ℚ) < 1024)]
      nlinarith
    have hstep1 : fs_while 3 q 0 = fs_while 2 (q / 1024) 1 :=
      fs_while_succ h1 (by norm_num) 2
    have hstep2 : fs_while 2 (q / 1024) 1 = fs_while 1 (q / 1024 / 1024) 2 :=
      fs_while_succ h2 (by norm_num) 1
    have hstop : fs_while 1 (q / 1024 / 1024) 2 = (q / 1024 / 1024, 2) := by
      refine fs_while_stop ?_ 1
      rintro ⟨hc, -⟩
      rw [div_div, le_div_iff₀ (by norm_num : (0 : ℚ) < 1024 * 1024)] at hc
      nlinarith
    have hdiv : q / 1024 / 1024 = q / 1024 ^ 2 := by ring
    simp only [format_file_size, fsLoopFmt]
    rw [if_neg hz, hstep1, hstep2, hstop, String.append_assoc, hdiv]
    rfl
  · intro q hge
    have h0 : (0 : ℚ) < q := lt_of_lt_of_le (by norm_num) hge
    have hz : ¬(q = 0) := ne_of_gt h0
    have h1 : (1024 : ℚ) ≤ q := le_trans (by norm_num) hge
    have h2 : (1024 : ℚ) ≤ q / 1024 := by
      rw [le_div_iff₀ (by norm_num : (0 : ℚ) < 1024)]
      nlinarith
    have h3 : (1024 : ℚ) ≤ q / 1024 / 1024 := by
      rw [div_div, le_div_iff₀ (by norm_num : (0 : ℚ) < 1024 * 1024)]
      nlinarith
    have hstep1 : fs_while 3 q 0 = fs_while 2 (q / 1024) 1 :=
      fs_while_succ h1 (by norm_num) 2
    have hstep2 : fs_while 2 (q / 1024) 1 = fs_while 1 (q / 1024 / 1024) 2 :=
      fs_while_succ h2 (by norm_num) 1
    have hstep3 : fs_while 1 (q / 1024 / 1024) 2 = fs_while 0 (q / 1024 / 1024 / 1024) 3 :=
      fs_while_succ h3 (by norm_num) 0
    have hdiv : q / 1024 / 1024 / 1024 = q / 1024 ^ 3 := by ring
    simp only [format_file_size, fsLoopFmt]
    rw [if_neg hz, hstep1, hstep2, hstep3, String.append_assoc, hdiv]
    rfl

/-- C5 (witness): the KB range conjunct applied at 2048 bytes. -/
theorem C5_witness :
    format_file_size 2048 = fmt_fixed 1 ((2048 : ℚ) / 1024) ++ " KB" :=
  C5_format_file_size.2.2.2.2.2.1 2048 (by norm_num) (by norm_num)

/-! ### C6 — missing fields default, decode ignores the schema -/

/-- C6: decoding only requires valid JSON — an object carrying nothing but
its `type` tag decodes fine — and the handler gives every absent field its
type-appropriate default (`0` for numbers, `"unknown"`/`"Unknown"`/
`"Unknown error"` for strings, `None` for `eta_seconds` and the error's
`chapter_number`, `False` for `success`), as the rendered lines and the
resulting state show: no branch raises on a minimal event. -/
theorem C6_missing_field_defaults :
    parse_event "\x7b\"type\": \"chapter_started\"\x7d" =
      some (JVal.obj [("type", JVal.str "chapter_started")]) ∧
    (∀ (now : ℚ) (st : ProgressState),
      handle_event now st (JVal.obj [("type", JVal.str "conversion_started")]) =
        ⟨{ st with total_chapters := JVal.num false 0, start_time := some now },
          ["🚀 Conversion started: 0 chapters to unknown format",
            "📁 Output path: unknown"], false⟩) ∧
    (∀ (now : ℚ) (st : ProgressState),
      handle_event now st (JVal.obj [("type", JVal.str "chapter_started")]) =
        ⟨{ st with current_chapter := JVal.num false 0 },
          ["\n📖 Chapter 0/" ++ py_str st.total_chapters ++ ": " ++ "Unknown",
            "⏱️  Duration: 0.0 seconds"], false⟩) ∧
    (∀ (now : ℚ) (st : ProgressState),
      handle_event now st (JVal.obj [("type", JVal.str "chapter_progress")]) =
        ⟨st, ["\r  " ++ barStr 0 ++
          "   0.0% | Speed: 0.0x | Bitrate: 0kbps | Size: 0 B | ETA: Unknown"], false⟩) ∧
    (∀ (now : ℚ) (st : ProgressState),
      handle_event now st (JVal.obj [("type", JVal.str "chapter_completed")]) =
        ⟨st, ["\n✅ Chapter 0 completed: Unknown", "📄 Output: Unknown",
          "⏱️  Duration: 0.0 seconds"], false⟩) ∧
    (∀ (now : ℚ) (st : ProgressState),
      handle_event now st (JVal.obj [("type", JVal.str "conversion_completed")]) =
        ⟨{ st with conversion_success := JVal.jbool false },
          ["\n❌ Conversion failed!"], false⟩) ∧
    (∀ (now : ℚ) (st : ProgressState),
      handle_event now st (JVal.obj [("type", JVal.str "error")]) =
        ⟨st, ["\n❌ Error: Unknown error"], false⟩) :=
  ⟨by with_unfolding_all rfl,
    fun now st => by with_unfolding_all rfl,
    fun now st => by with_unfolding_all rfl,
    fun now st => by with_unfolding_all rfl,
    fun now st => by with_unfolding_all rfl,
    fun now st => by with_unfolding_all rfl,
    fun now st => by with_unfolding_all rfl⟩

/-! ### C7 — frame effects of the handler -/

/-- C7: each event mutates only its designated Progress State fields —
`total_chapters` and `start_time` only on `conversion_started`,
`current_chapter` only on `chapter_started`, `conversion_success` only on
`conversion_completed` — and an event that is none of the three writers
(`chapter_progress`, `chapter_completed`, `error`, unknown tags, and even
non-dict events) leaves the whole state unchanged. -/
theorem C7_frame (now : ℚ) (st : ProgressState) (ev : JVal) :
    (isEventType ev "conversion_started" = false →
      (handle_event now st ev).st.total_chapters = st.total_chapters ∧
      (handle_event now st ev).st.start_time = st.start_time) ∧
    (isEventType ev "chapter_started" = false →
      (handle_event now st ev).st.current_chapter = st.current_chapter) ∧
    (isEventType ev "conversion_completed" = false →
      (handle_event now st ev).st.conversion_success = st.conversion_success) ∧
    (isEventType ev "conversion_started" = false →
      isEventType ev "chapter_started" = false →
      isEventType ev "conversion_completed" = false →
      (handle_event now st ev).st = st) := by
  cases ev with
  | obj fields =>
    simp only [handle_event, isEventType]
    split_ifs with h1 h2 h3 h4 h5 h6 <;>
      refine ⟨fun hA => ?_, fun hB => ?_, fun hC => ?_, fun hD1 hD2 hD3 => ?_⟩ <;>
      first
        | exact ⟨rfl, rfl⟩
        | rfl
        | simp_all
  | null => exact ⟨fun _ => ⟨rfl, rfl⟩, fun _ => rfl, fun _ => rfl, fun _ _ _ => rfl⟩
  | jbool b => exact ⟨fun _ => ⟨rfl, rfl⟩, fun _ => rfl, fun _ => rfl, fun _ _ _ => rfl⟩
  | num f q => exact ⟨fun _ => ⟨rfl, rfl⟩, fun _ => rfl, fun _ => rfl, fun _ _ _ => rfl⟩
  | str s => exact ⟨fun _ => ⟨rfl, rfl⟩, fun _ => rfl, fun _ => rfl, fun _ _ _ => rfl⟩
  | arr elems => exact ⟨fun _ => ⟨rfl, rfl⟩, fun _ => rfl, fun _ => rfl, fun _ _ _ => rfl⟩

/-- C7 (witness): an `error` event at concrete arguments leaves every
field of the initial state unchanged. -/
theorem C7_frame_witness :
    ((handle_event 0 initial_state (JVal.obj [("type", JVal.str "error")])).st.total_chapters
        = initial_state.total_chapters ∧
      (handle_event 0 initial_state (JVal.obj [("type", JVal.str "error")])).st.start_time
        = initial_state.start_time) ∧
    (handle_event 0 initial_state (JVal.obj [("type", JVal.str "error")])).st.current_chapter
      = initial_state.current_chapter ∧
    (handle_event 0 initial_state (JVal.obj [("type", JVal.str "error")])).st.conversion_success
      = initial_state.conversion_success ∧
    (handle_event 0 initial_state (JVal.obj [("type", JVal.str "error")])).st
      = initial_state := by
  have h := C7_frame 0 initial_state (JVal.obj [("type", JVal.str "error")])
  exact ⟨h.1 (by with_unfolding_all rfl),
    h.2.1 (by with_unfolding_all rfl),
    h.2.2.1 (by with_unfolding_all rfl),
    h.2.2.2 (by with_unfolding_all rfl) (by with_unfolding_all rfl) (by with_unfolding_all rfl)⟩

/-! ### C8 — the chapter bound is not enforced -/

/-- C8 (counterexample): the claim says `current_chapter` never exceeds
`total_chapters` once the latter is set.  Feeding
`conversion_started(total_chapters = 2)` then
`chapter_started(chapter_number = 5)` leaves the state with
`current_chapter = 5 > 2 = total_chapters`, and nothing raises. -/
theorem C8_counterexample :
    (handle_event 0
        ((handle_event 0 initial_state
          (JVal.obj [("type", JVal.str "conversion_started"),
            ("total_chapters", JVal.num false 2)])).st)
        (JVal.obj [("type", JVal.str "chapter_started"),
          ("chapter_number", JVal.num false 5)])).st.total_chapters
      = JVal.num false 2 ∧
    (handle_event 0
        ((handle_event 0 initial_state
          (JVal.obj [("type", JVal.str "conversion_started"),
            ("total_chapters", JVal.num false 2)])).st)
        (JVal.obj [("type", JVal.str "chapter_started"),
          ("chapter_number", JVal.num false 5)])).st.current_chapter
      = JVal.num false 5 ∧
    (handle_event 0
        ((handle_event 0 initial_state
          (JVal.obj [("type", JVal.str "conversion_started"),
            ("total_chapters", JVal.num false 2)])).st)
        (JVal.obj [("type", JVal.str "chapter_started"),
          ("chapter_number", JVal.num false 5)])).raised = false ∧
    (2 : ℚ) < 5 :=
  ⟨by with_unfolding_all rfl, by with_unfolding_all rfl,
    by with_unfolding_all rfl, by norm_num⟩

/-- C8 (amended): the handler enforces no bound at all — a
`chapter_started` event sets `current_chapter` to whatever
`chapter_number` carries, regardless of `total_chapters`, and (as long as
`duration_seconds` is formattable, e.g. absent or numeric) does not raise;
the header line simply shows the raw numbers. -/
theorem C8_amended (now : ℚ) (st : ProgressState) (fields : List (String × JVal))
    (ch : JVal)
    (htype : jget fields "type" JVal.null = JVal.str "chapter_started")
    (hch : jget fields "chapter_number" (JVal.num false 0) = ch)
    (hdur : (fmt_jnum 1 (jget fields "duration_seconds" (JVal.num false 0))).isSome = true) :
    (handle_event now st (JVal.obj fields)).st.current_chapter = ch ∧
    (handle_event now st (JVal.obj fields)).raised = false := by
  simp only [handle_event, htype]
  rw [if_neg (by decide), if_pos (by decide)]
  constructor
  · exact hch
  · rcases ho : fmt_jnum 1 (jget fields "duration_seconds" (JVal.num false 0)) with - | d
    · rw [ho] at hdur
      exact absurd hdur (by decide)
    · simp [handleChapterStarted, ho]

/-- C8 (witness for the amended claim): `chapter_number = 5` with
`total_chapters` still 0 in the state. -/
theorem C8_amended_witness :
    (handle_event 0 initial_state
      (JVal.obj [("type", JVal.str "chapter_started"),
        ("chapter_number", JVal.num false 5)])).st.current_chapter = JVal.num false 5 ∧
    (handle_event 0 initial_state
      (JVal.obj [("type", JVal.str "chapter_started"),
        ("chapter_number", JVal.num false 5)])).raised = false :=
  C8_amended 0 initial_state
    [("type", JVal.str "chapter_started"), ("chapter_number", JVal.num false 5)]
    (JVal.num false 5)
    (by with_unfolding_all rfl) (by with_unfolding_all rfl) (by with_unfolding_all rfl)

/-! ### C9 — the decode→render pipeline has no hidden nondeterminism -/

/-- C9: processing the same decodable line against the same prior state
twice yields the same printed output and the same raised flag, whatever
the hidden clock (`time.time()`) returns on each run — the only
clock-dependent effect is the `start_time` state field, which no printed
line uses. -/
theorem C9_deterministic_render (line : String) (st : ProgressState)
    (now1 now2 : ℚ) (ev : JVal) (h : parse_event line = some ev) :
    (process_line now1 st line).out = (process_line now2 st line).out ∧
    (process_line now1 st line).raised = (process_line now2 st line).raised := by
  unfold process_line
  rw [h]
  by_cases ht : truthy ev = true
  · simp only [ht, if_true]
    exact handle_event_out_raised_now now1 now2 st ev
  · simp only [ht]
    exact ⟨rfl, rfl⟩

/-- C9 (witness): a concrete `error` event line processed at two different
clock values. -/
theorem C9_witness :
    (process_line 0 initial_state "\x7b\"type\": \"error\"\x7d").out =
      (process_line 1 initial_state "\x7b\"type\": \"error\"\x7d").out ∧
    (process_line 0 initial_state "\x7b\"type\": \"error\"\x7d").raised =
      (process_line 1 initial_state "\x7b\"type\": \"error\"\x7d").raised :=
  C9_deterministic_render "\x7b\"type\": \"error\"\x7d" initial_state 0 1
    (JVal.obj [("type", JVal.str "error")]) (by with_unfolding_all rfl)

